import Mathlib

/-!
Verification of the hub-control-plane cache-aside core.

Shallow embedding of:
- `backend/models/generic_entities.go` (entity records and key derivation),
- the `GenericRepository` DynamoDB layer (single-table store with conditional
  writes, point gets, queries by entity type),
- `backend/service/app_service_cached.go` (`AppServiceWithCache`, the
  cache-aside coordinator over the store and a Redis cache),
- the legacy `backend/repository/dynamodb.go` (`DynamoDBRepository`).

Time is modelled as `Nat` (`0` is Go's zero `time.Time`; `time.Now().UTC()`
is never zero).  The durable store is an association list of items keyed by
`(PK, SK)`; the cache is an association list from string keys to typed
snapshots (`CacheVal`), with a `corrupt` constructor standing for an entry
that `json.Unmarshal` rejects.  Redis/cache faults are injected through a
`CacheFaults` record: a faulted call returns an error to the caller exactly
as the Go client would, and the service code's handling of that error is
translated verbatim.
-/

namespace HubControlPlane

/-- The common single-table fields of `models.DynamoDBEntity`. -/
structure DynamoDBEntity where
  PK : String
  SK : String
  GSI1PK : String
  GSI1SK : String
  EntityType : String
  CreatedAt : Nat
  UpdatedAt : Nat
deriving DecidableEq, Repr

/-- `models.UserEntity`: embedded base entity plus user attributes. -/
structure UserEntity where
  base : DynamoDBEntity
  ID : String
  Email : String
  FirstName : String
  LastName : String
deriving DecidableEq, Repr

/-- `models.ContactEntity`: embedded base entity plus contact attributes. -/
structure ContactEntity where
  base : DynamoDBEntity
  ID : String
  UserID : String
  Name : String
  Email : String
  Phone : String
  Company : String
  IsFavorite : Bool
deriving DecidableEq, Repr

/-- `models.ProductEntity`: embedded base entity plus product attributes
(the float `Price` is carried opaquely; no claim reasons about it). -/
structure ProductEntity where
  base : DynamoDBEntity
  ID : String
  Name : String
  Description : String
  Price : Int
  Category : String
  StockQuantity : Int
deriving DecidableEq, Repr

/-- A freshly constructed base entity: Go zero values for every field the
constructor does not set (`CreatedAt`/`UpdatedAt` are the zero time). -/
def zeroBase : DynamoDBEntity :=
  { PK := "", SK := "", GSI1PK := "", GSI1SK := "", EntityType := ""
    CreatedAt := 0, UpdatedAt := 0 }

/-- `models.NewUser`: builds a user and derives the single-table keys
(`PK = "USER#"++id`, `SK = "METADATA"`, `GSI1PK = "USER"`,
`GSI1SK = "USER#"++id`). -/
def NewUser (id email firstName lastName : String) : UserEntity :=
  { base := { zeroBase with
      PK := "USER#" ++ id
      SK := "METADATA"
      GSI1PK := "USER"
      GSI1SK := "USER#" ++ id
      EntityType := "USER" }
    ID := id, Email := email, FirstName := firstName, LastName := lastName }

/-- `models.NewContact`: builds a contact co-located under its owner
(`PK = "USER#"++userID`, `SK = "CONTACT#"++id`). -/
def NewContact (id userID name email phone company : String)
    (isFavorite : Bool) : ContactEntity :=
  { base := { zeroBase with
      PK := "USER#" ++ userID
      SK := "CONTACT#" ++ id
      GSI1PK := "CONTACT"
      GSI1SK := "CONTACT#" ++ id
      EntityType := "CONTACT" }
    ID := id, UserID := userID, Name := name, Email := email
    Phone := phone, Company := company, IsFavorite := isFavorite }

/-- `models.NewProduct`: a standalone entity
(`PK = "PRODUCT#"++id`, `SK = "METADATA"`). -/
def NewProduct (id name description : String) (price : Int)
    (category : String) : ProductEntity :=
  { base := { zeroBase with
      PK := "PRODUCT#" ++ id
      SK := "METADATA"
      GSI1PK := "PRODUCT"
      GSI1SK := "CATEGORY#" ++ category ++ "#" ++ id
      EntityType := "PRODUCT" }
    ID := id, Name := name, Description := description
    Price := price, Category := category, StockQuantity := 0 }

/-- `DynamoDBEntity.SetTimestamps`: sets `CreatedAt` only when it is still
the zero time, and always refreshes `UpdatedAt` to `now`. -/
def SetTimestamps (e : DynamoDBEntity) (now : Nat) : DynamoDBEntity :=
  { e with
    CreatedAt := if e.CreatedAt = 0 then now else e.CreatedAt
    UpdatedAt := now }

/-! ## The durable store: `GenericRepository` over the single DynamoDB table -/

/-- A row of the single table.  The service only ever stores users and
contacts through the coordinator. -/
inductive Item where
  | user (u : UserEntity)
  | contact (c : ContactEntity)
deriving DecidableEq, Repr

/-- `BaseModel.GetPK` of a row. -/
def Item.pk : Item → String
  | .user u => u.base.PK
  | .contact c => c.base.PK

/-- `BaseModel.GetSK` of a row. -/
def Item.sk : Item → String
  | .user u => u.base.SK
  | .contact c => c.base.SK

/-- `GSI1PK` of a row (the entity-type index key). -/
def Item.gsi1pk : Item → String
  | .user u => u.base.GSI1PK
  | .contact c => c.base.GSI1PK

/-- `SetTimestamps` lifted to a row (the repository calls it on any item
implementing the interface before `Put`/`PutIfNotExists`). -/
def Item.setTimestamps : Item → Nat → Item
  | .user u, now => .user { u with base := SetTimestamps u.base now }
  | .contact c, now => .contact { c with base := SetTimestamps c.base now }

/-- `attributevalue.UnmarshalMap` of a row into `UserEntity`: Go unmarshals
by `dynamodbav` field names, so a contact row yields a user with the
overlapping fields filled and the rest left at their zero values. -/
def Item.toUser : Item → UserEntity
  | .user u => u
  | .contact c =>
    { base := c.base, ID := c.ID, Email := c.Email
      FirstName := "", LastName := "" }

/-- `attributevalue.UnmarshalMap` of a row into `ContactEntity`. -/
def Item.toContact : Item → ContactEntity
  | .contact c => c
  | .user u =>
    { base := u.base, ID := u.ID, UserID := "", Name := ""
      Email := u.Email, Phone := "", Company := "", IsFavorite := false }

/-- The DynamoDB table: rows addressed by `(PK, SK)`. -/
def Store := List Item

/-- Repository errors (`repository.ErrNotFound`, `repository.ErrAlreadyExists`). -/
inductive RepoErr where
  | notFound
  | alreadyExists
deriving DecidableEq, Repr

/-- Point lookup by full primary key, as DynamoDB `GetItem` resolves it. -/
def storeFind (st : Store) (pk sk : String) : Option Item :=
  st.find? (fun it => it.pk = pk && it.sk = sk)

/-- DynamoDB `PutItem` without a condition: insert or replace the row with
this item's key. -/
def storePut (st : Store) (it : Item) : Store :=
  st.filter (fun o => !(o.pk = it.pk && o.sk = it.sk)) ++ [it]

/-- `GenericRepository.Put`: stamp timestamps, then unconditional
insert-or-replace. -/
def repoPut (st : Store) (it : Item) (now : Nat) : Store :=
  storePut st (it.setTimestamps now)

/-- `GenericRepository.PutIfNotExists`: stamp timestamps, then `PutItem`
with `attribute_not_exists(PK)`; a conditional-check failure surfaces as
`ErrAlreadyExists` and writes nothing. -/
def repoPutIfNotExists (st : Store) (it : Item) (now : Nat) :
    Except RepoErr Store :=
  let stamped := it.setTimestamps now
  match storeFind st stamped.pk stamped.sk with
  | some _ => .error .alreadyExists
  | none => .ok (storePut st stamped)

/-- `GenericRepository.Get`: `GetItem` by `(pk, sk)`; a missing row is
`ErrNotFound`, a present row is returned for unmarshalling. -/
def repoGet (st : Store) (pk sk : String) : Except RepoErr Item :=
  match storeFind st pk sk with
  | none => .error .notFound
  | some it => .ok it

/-- The attribute-update map handed to `GenericRepository.Update`
(`map[string]interface{}` restricted to the entity attributes the service
layers pass through). -/
structure AttrUpdates where
  email : Option String
  firstName : Option String
  lastName : Option String
  name : Option String
  phone : Option String
  company : Option String
  isFavorite : Option Bool
deriving DecidableEq, Repr

/-- The empty update map. -/
def AttrUpdates.none : AttrUpdates :=
  { email := Option.none, firstName := Option.none, lastName := Option.none
    name := Option.none, phone := Option.none, company := Option.none
    isFavorite := Option.none }

/-- Applying the `SET` update expression to a row: each named attribute is
overwritten, and `UpdatedAt` is always set to `now` (the repository adds
`updates["UpdatedAt"] = time.Now().UTC()`). -/
def applyUpdates (it : Item) (up : AttrUpdates) (now : Nat) : Item :=
  match it with
  | .user u => .user
    { u with
      base := { u.base with UpdatedAt := now }
      Email := up.email.getD u.Email
      FirstName := up.firstName.getD u.FirstName
      LastName := up.lastName.getD u.LastName }
  | .contact c => .contact
    { c with
      base := { c.base with UpdatedAt := now }
      Email := up.email.getD c.Email
      Name := up.name.getD c.Name
      Phone := up.phone.getD c.Phone
      Company := up.company.getD c.Company
      IsFavorite := up.isFavorite.getD c.IsFavorite }

/-- `GenericRepository.Update`: `UpdateItem` conditioned on
`attribute_exists(PK)`; on an absent row the conditional check fails,
surfaces as `ErrNotFound`, and the table is untouched; otherwise only the
named attributes and `UpdatedAt` change. -/
def repoUpdate (st : Store) (pk sk : String) (up : AttrUpdates) (now : Nat) :
    Except RepoErr Store :=
  match storeFind st pk sk with
  | none => .error .notFound
  | some it => .ok (storePut st (applyUpdates it up now))

/-- `GenericRepository.Delete`: `DeleteItem` conditioned on
`attribute_exists(PK)`; absent rows surface as `ErrNotFound`. -/
def repoDelete (st : Store) (pk sk : String) : Except RepoErr Store :=
  match storeFind st pk sk with
  | none => .error .notFound
  | some _ => .ok (st.filter (fun o => !(o.pk = pk && o.sk = sk)))

/-- `GenericRepository.Query` with a sort-key prefix: all rows of the
partition whose `SK` begins with the prefix (empty prefix matches all). -/
def repoQuery (st : Store) (pk skPrefix : String) : List Item :=
  st.filter (fun it => it.pk = pk && skPrefix.isPrefixOf it.sk)

/-- `GenericRepository.QueryByEntityType`: query on `GSI1` with
`GSI1PK = entityType`. -/
def repoQueryByEntityType (st : Store) (entityType : String) : List Item :=
  st.filter (fun it => it.gsi1pk = entityType)

/-- `GenericRepository.QueryWithFilter` specialised to the one filter the
service uses: `IsFavorite = true`, evaluated backend-side after the key
match. -/
def repoQueryFavorites (st : Store) (pk skPrefix : String) : List Item :=
  (repoQuery st pk skPrefix).filter (fun it =>
    match it with
    | .contact c => c.IsFavorite
    | .user _ => false)

/-! ## The cache: Redis as a key-value map of serialized snapshots -/

/-- A serialized snapshot held under a cache key, as the coordinator writes
them; `corrupt` stands for any entry `json.Unmarshal` rejects. -/
inductive CacheVal where
  | user (u : UserEntity)
  | contact (c : ContactEntity)
  | userList (l : List UserEntity)
  | contactList (l : List ContactEntity)
  | corrupt
deriving DecidableEq, Repr

/-- `json.Unmarshal` of a cached entry into `models.UserEntity`. -/
def CacheVal.asUser : CacheVal → Option UserEntity
  | .user u => some u
  | _ => none

/-- `json.Unmarshal` of a cached entry into `models.ContactEntity`. -/
def CacheVal.asContact : CacheVal → Option ContactEntity
  | .contact c => some c
  | _ => none

/-- `json.Unmarshal` of a cached entry into `[]*models.UserEntity`. -/
def CacheVal.asUserList : CacheVal → Option (List UserEntity)
  | .userList l => some l
  | _ => none

/-- `json.Unmarshal` of a cached entry into `[]*models.ContactEntity`. -/
def CacheVal.asContactList : CacheVal → Option (List ContactEntity)
  | .contactList l => some l
  | _ => none

/-- The Redis keyspace. -/
def Cache := List (String × CacheVal)

/-- Raw lookup of a cache key. -/
def Cache.lookup (c : Cache) (k : String) : Option CacheVal :=
  (c.find? (fun p => p.1 = k)).map Prod.snd

/-- Raw removal of a cache key. -/
def Cache.remove (c : Cache) (k : String) : Cache :=
  c.filter (fun p => !(p.1 = k))

/-- Raw insertion of a cache key (TTLs are not modelled: every claim is
about behavior before expiry). -/
def Cache.insert (c : Cache) (k : String) (v : CacheVal) : Cache :=
  (k, v) :: c.remove k

/-- Fault injection for the Redis client: when a flag is set, every call of
that kind returns an error to the service code. -/
structure CacheFaults where
  getFault : Bool
  setFault : Bool
  delFault : Bool
deriving DecidableEq, Repr

/-- The fault-free client. -/
def noFaults : CacheFaults :=
  { getFault := false, setFault := false, delFault := false }

/-- `cache.Get(...).Result()`: a faulted call errors, which the service
treats exactly like a miss (it falls through to the store). -/
def cacheGet (f : CacheFaults) (c : Cache) (k : String) : Option CacheVal :=
  if f.getFault then none else c.lookup k

/-- `cache.Set(...).Err()`: a faulted call writes nothing (the service only
logs the error). -/
def cacheSet (f : CacheFaults) (c : Cache) (k : String) (v : CacheVal) :
    Cache :=
  if f.setFault then c else c.insert k v

/-- `cache.Del(...).Err()`: a faulted call removes nothing (the service
only logs the error). -/
def cacheDel (f : CacheFaults) (c : Cache) (k : String) : Cache :=
  if f.delFault then c else c.remove k

/-! ## Cache keys used by `AppServiceWithCache` -/

/-- `fmt.Sprintf("user:%s", userID)`. -/
def userKey (userID : String) : String := "user:" ++ userID

/-- `fmt.Sprintf("contact:%s:%s", userID, contactID)`. -/
def contactKey (userID contactID : String) : String :=
  "contact:" ++ userID ++ ":" ++ contactID

/-- The type-wide user list key. -/
def usersListKey : String := "users:list"

/-- The type-wide contact list key. -/
def contactsListKey : String := "contacts:list"

/-- `fmt.Sprintf("contacts:user:%s", userID)`. -/
def userContactsKey (userID : String) : String := "contacts:user:" ++ userID

/-- `fmt.Sprintf("contacts:favorites:%s", userID)`. -/
def favoritesKey (userID : String) : String :=
  "contacts:favorites:" ++ userID

/-! ## The coordinator: `AppServiceWithCache` -/

/-- The service-level error values the coordinator returns
(`errors.New("user not found")` and so on; `internalErr` stands for a
wrapped unexpected repository error). -/
inductive SvcErr where
  | userNotFound
  | userAlreadyExists
  | contactNotFound
  | internalErr
deriving DecidableEq, Repr

/-- Joint state of the durable store and the cache. -/
structure SysState where
  store : Store
  cache : Cache

/-- `cacheUser`: serialize and `Set` under `user:<ID>` (marshalling these
structs never fails). -/
def cacheUserOp (f : CacheFaults) (c : Cache) (u : UserEntity) : Cache :=
  cacheSet f c (userKey u.ID) (.user u)

/-- `cacheContact`: serialize and `Set` under `contact:<UserID>:<ID>`. -/
def cacheContactOp (f : CacheFaults) (c : Cache) (ct : ContactEntity) :
    Cache :=
  cacheSet f c (contactKey ct.UserID ct.ID) (.contact ct)

/-- `invalidateUserListCache`: `Del "users:list"`. -/
def invalidateUserListCache (f : CacheFaults) (c : Cache) : Cache :=
  cacheDel f c usersListKey

/-- `invalidateUserContactCaches`: `Del "contacts:user:<id>"`, and only if
that succeeded, `Del "contacts:favorites:<id>"` (an early return skips the
second delete). -/
def invalidateUserContactCaches (f : CacheFaults) (c : Cache)
    (userID : String) : Cache :=
  if f.delFault then c
  else ((c.remove (userContactsKey userID)).remove (favoritesKey userID))

/-- `AppServiceWithCache.CreateUser`: build via `NewUser` (the `userID` is
the freshly generated UUID, passed as a parameter), `PutIfNotExists`
(which stamps the shared struct's timestamps), then best-effort point-key
`Set` and best-effort `Del` of the user list key.  On `ErrAlreadyExists`
the service returns the conflict before touching the cache. -/
def createUser (f : CacheFaults) (s : SysState)
    (userID email firstName lastName : String) (now : Nat) :
    Except SvcErr UserEntity × SysState :=
  let user := NewUser userID email firstName lastName
  match repoPutIfNotExists s.store (.user user) now with
  | .error .alreadyExists => (.error .userAlreadyExists, s)
  | .error _ => (.error .internalErr, s)
  | .ok store1 =>
    let user1 := { user with base := SetTimestamps user.base now }
    let cache1 := cacheUserOp f s.cache user1
    let cache2 := invalidateUserListCache f cache1
    (.ok user1, { store := store1, cache := cache2 })

/-- `AppServiceWithCache.GetUser`: cache `Get` under `user:<id>` (an error
or an unparsable entry falls through); on a miss, `repo.Get` at
`(USER#<id>, METADATA)` with `ErrNotFound` propagated as "user not found";
on a store hit, best-effort re-cache and return. -/
def getUser (f : CacheFaults) (s : SysState) (userID : String) :
    Except SvcErr UserEntity × SysState :=
  match (cacheGet f s.cache (userKey userID)).bind CacheVal.asUser with
  | some u => (.ok u, s)
  | none =>
    match repoGet s.store ("USER#" ++ userID) "METADATA" with
    | .error .notFound => (.error .userNotFound, s)
    | .error _ => (.error .internalErr, s)
    | .ok it =>
      let u := it.toUser
      (.ok u, { s with cache := cacheUserOp f s.cache u })

/-- `AppServiceWithCache.UpdateUser`: `repo.Update` first (propagating
`ErrNotFound` with nothing else done), then re-read through `GetUser`,
then an explicit best-effort re-cache and the user-list invalidation. -/
def updateUser (f : CacheFaults) (s : SysState) (userID : String)
    (up : AttrUpdates) (now : Nat) : Except SvcErr UserEntity × SysState :=
  match repoUpdate s.store ("USER#" ++ userID) "METADATA" up now with
  | .error .notFound => (.error .userNotFound, s)
  | .error _ => (.error .internalErr, s)
  | .ok store1 =>
    match getUser f { s with store := store1 } userID with
    | (.error e, s2) => (.error e, s2)
    | (.ok u, s2) =>
      let cache3 := cacheUserOp f s2.cache u
      let cache4 := invalidateUserListCache f cache3
      (.ok u, { store := s2.store, cache := cache4 })

/-- `AppServiceWithCache.DeleteUser`: `repo.Delete` first (propagating
`ErrNotFound`), then best-effort point-key `Del` and list invalidation. -/
def deleteUser (f : CacheFaults) (s : SysState) (userID : String) :
    Except SvcErr Unit × SysState :=
  match repoDelete s.store ("USER#" ++ userID) "METADATA" with
  | .error .notFound => (.error .userNotFound, s)
  | .error _ => (.error .internalErr, s)
  | .ok store1 =>
    let cache1 := cacheDel f s.cache (userKey userID)
    let cache2 := invalidateUserListCache f cache1
    (.ok (), { store := store1, cache := cache2 })

/-- `AppServiceWithCache.ListAllUsers`: list cache under `users:list`,
else `QueryByEntityType "USER"` and best-effort list caching. -/
def listAllUsers (f : CacheFaults) (s : SysState) :
    Except SvcErr (List UserEntity) × SysState :=
  match (cacheGet f s.cache usersListKey).bind CacheVal.asUserList with
  | some l => (.ok l, s)
  | none =>
    let users := (repoQueryByEntityType s.store "USER").map Item.toUser
    (.ok users,
      { s with cache := cacheSet f s.cache usersListKey (.userList users) })

/-- `AppServiceWithCache.CreateContact`: build via `NewContact` (the
`contactID` is the generated UUID), then plain `repo.Put` — unconditional
insert-or-replace, never `ErrAlreadyExists` — then best-effort point-key
`Set` and `invalidateUserContactCaches`. -/
def createContact (f : CacheFaults) (s : SysState)
    (contactID userID name email phone company : String)
    (isFavorite : Bool) (now : Nat) :
    Except SvcErr ContactEntity × SysState :=
  let contact := NewContact contactID userID name email phone company
    isFavorite
  let store1 := repoPut s.store (.contact contact) now
  let contact1 := { contact with base := SetTimestamps contact.base now }
  let cache1 := cacheContactOp f s.cache contact1
  let cache2 := invalidateUserContactCaches f cache1 userID
  (.ok contact1, { store := store1, cache := cache2 })

/-- `AppServiceWithCache.GetContact`: cache `Get` under
`contact:<uid>:<cid>`; on a miss, `repo.Get` at
`(USER#<uid>, CONTACT#<cid>)`; on a store hit, best-effort re-cache. -/
def getContact (f : CacheFaults) (s : SysState)
    (userID contactID : String) : Except SvcErr ContactEntity × SysState :=
  match (cacheGet f s.cache (contactKey userID contactID)).bind
      CacheVal.asContact with
  | some c => (.ok c, s)
  | none =>
    match repoGet s.store ("USER#" ++ userID) ("CONTACT#" ++ contactID) with
    | .error .notFound => (.error .contactNotFound, s)
    | .error _ => (.error .internalErr, s)
    | .ok it =>
      let c := it.toContact
      (.ok c, { s with cache := cacheContactOp f s.cache c })

/-- `AppServiceWithCache.ListUserContacts`: list cache under
`contacts:user:<uid>`, else `Query (USER#<uid>, "CONTACT#")`. -/
def listUserContacts (f : CacheFaults) (s : SysState) (userID : String) :
    Except SvcErr (List ContactEntity) × SysState :=
  match (cacheGet f s.cache (userContactsKey userID)).bind
      CacheVal.asContactList with
  | some l => (.ok l, s)
  | none =>
    let contacts :=
      (repoQuery s.store ("USER#" ++ userID) "CONTACT#").map Item.toContact
    (.ok contacts,
      { s with cache := (cacheSet f s.cache (userContactsKey userID)
          (.contactList contacts)) })

/-- `AppServiceWithCache.ListFavoriteContacts`: list cache under
`contacts:favorites:<uid>`, else `QueryWithFilter` with
`IsFavorite = true`. -/
def listFavoriteContacts (f : CacheFaults) (s : SysState)
    (userID : String) : Except SvcErr (List ContactEntity) × SysState :=
  match (cacheGet f s.cache (favoritesKey userID)).bind
      CacheVal.asContactList with
  | some l => (.ok l, s)
  | none =>
    let contacts :=
      (repoQueryFavorites s.store ("USER#" ++ userID) "CONTACT#").map
        Item.toContact
    (.ok contacts,
      { s with cache := (cacheSet f s.cache (favoritesKey userID)
          (.contactList contacts)) })

/-- `AppServiceWithCache.UpdateContact`: `repo.Update` first, then re-read
through `GetContact`, explicit re-cache, and
`invalidateUserContactCaches`. -/
def updateContact (f : CacheFaults) (s : SysState)
    (userID contactID : String) (up : AttrUpdates) (now : Nat) :
    Except SvcErr ContactEntity × SysState :=
  match repoUpdate s.store ("USER#" ++ userID) ("CONTACT#" ++ contactID)
      up now with
  | .error .notFound => (.error .contactNotFound, s)
  | .error _ => (.error .internalErr, s)
  | .ok store1 =>
    match getContact f { s with store := store1 } userID contactID with
    | (.error e, s2) => (.error e, s2)
    | (.ok c, s2) =>
      let cache3 := cacheContactOp f s2.cache c
      let cache4 := invalidateUserContactCaches f cache3 userID
      (.ok c, { store := s2.store, cache := cache4 })

/-- `AppServiceWithCache.DeleteContact`: `repo.Delete` first, then
best-effort point-key `Del` and `invalidateUserContactCaches`. -/
def deleteContact (f : CacheFaults) (s : SysState)
    (userID contactID : String) : Except SvcErr Unit × SysState :=
  match repoDelete s.store ("USER#" ++ userID) ("CONTACT#" ++ contactID) with
  | .error .notFound => (.error .contactNotFound, s)
  | .error _ => (.error .internalErr, s)
  | .ok store1 =>
    let cache1 := cacheDel f s.cache (contactKey userID contactID)
    let cache2 := invalidateUserContactCaches f cache1 userID
    (.ok (), { store := store1, cache := cache2 })

/-- `AppServiceWithCache.ListAllContacts`: list cache under
`contacts:list`, else `QueryByEntityType "CONTACT"` and best-effort list
caching. -/
def listAllContacts (f : CacheFaults) (s : SysState) :
    Except SvcErr (List ContactEntity) × SysState :=
  match (cacheGet f s.cache contactsListKey).bind CacheVal.asContactList with
  | some l => (.ok l, s)
  | none =>
    let contacts :=
      (repoQueryByEntityType s.store "CONTACT").map Item.toContact
    (.ok contacts,
      { s with cache := (cacheSet f s.cache contactsListKey
          (.contactList contacts)) })

/-! ## The legacy `DynamoDBRepository` (`backend/repository/dynamodb.go`) -/

/-- The flat `models.User` the legacy repository works with. -/
structure MUser where
  ID : String
  Email : String
  FirstName : String
  LastName : String
  CreatedAt : Nat
  UpdatedAt : Nat
deriving DecidableEq, Repr

/-- The legacy table, keyed by the single attribute `id`. -/
def LegacyTable := List (String × MUser)

/-- `DynamoDBRepository.GetUser`: `GetItem` by `id`; when `out.Item` is
nil the function returns `nil, nil` — a nil record with a nil error, not
a `NotFound` failure. -/
def dynGetUser (tbl : LegacyTable) (id : String) :
    Except String (Option MUser) :=
  match tbl.find? (fun p => p.1 = id) with
  | none => .ok none
  | some p => .ok (some p.2)

/-- A one-page DynamoDB `Scan` with a `Limit`: at most `limit` items come
back and the code issues no follow-up page request. -/
def scanPage (tbl : List MUser) (limit : Nat) : List MUser :=
  tbl.take limit

/-- `DynamoDBRepository.ListUsers`: a single `Scan` with `Limit: 100`. -/
def dynListUsers (tbl : List MUser) : List MUser :=
  scanPage tbl 100

/-! ## Derived notions used in theorem statements -/

/-- Folding a sequence of mutation times through `SetTimestamps`. -/
def setTimestampsSeq (e : DynamoDBEntity) (ts : List Nat) : DynamoDBEntity :=
  ts.foldl SetTimestamps e

/-- Number of rows of the table carrying a given primary key. -/
def countKey (st : Store) (pk sk : String) : Nat :=
  (st.filter (fun it => it.pk = pk && it.sk = sk)).length

/-- The pure store outcome of a point user read: what `GetUser` computes
when the cache contributes nothing. -/
def storeGetUserOutcome (st : Store) (userID : String) :
    Except SvcErr UserEntity :=
  match repoGet st ("USER#" ++ userID) "METADATA" with
  | .error .notFound => .error .userNotFound
  | .error _ => .error .internalErr
  | .ok it => .ok it.toUser

/-- The pure store outcome of a point contact read. -/
def storeGetContactOutcome (st : Store) (userID contactID : String) :
    Except SvcErr ContactEntity :=
  match repoGet st ("USER#" ++ userID) ("CONTACT#" ++ contactID) with
  | .error .notFound => .error .contactNotFound
  | .error _ => .error .internalErr
  | .ok it => .ok it.toContact

/-- The closed set of standalone entity kinds (entities whose `SK` is
`METADATA`), with their key derivation as the constructors perform it. -/
inductive StandaloneType where
  | userT
  | productT
deriving DecidableEq, Repr

/-- The `(PK, SK)` pair a standalone entity constructor derives (the
non-key attributes do not influence the keys; see the purity theorem). -/
def standaloneKeys : StandaloneType → String → String × String
  | .userT, id =>
    ((NewUser id "" "" "").base.PK, (NewUser id "" "" "").base.SK)
  | .productT, id =>
    ((NewProduct id "" "" 0 "").base.PK, (NewProduct id "" "" 0 "").base.SK)

/-! ## Helper lemmas -/

theorem cache_lookup_insert_self (c : Cache) (k : String) (v : CacheVal) :
    (c.insert k v).lookup k = some v := by
  simp [Cache.insert, Cache.lookup, List.find?_cons]

theorem cache_lookup_remove_ne (c : Cache) (k k2 : String) (h : k2 ≠ k) :
    (c.remove k).lookup k2 = c.lookup k2 := by
  unfold Cache.remove Cache.lookup
  rw [List.find?_filter]
  have hf : (fun a : String × CacheVal =>
      decide ((!decide (a.1 = k)) = true ∧ decide (a.1 = k2) = true))
      = fun a : String × CacheVal => decide (a.1 = k2) := by
    funext a
    by_cases ha : a.1 = k2
    · have hak : ¬ a.1 = k := by rw [ha]; exact h
      simp [ha, hak, h]
    · simp [ha]
  rw [hf]

theorem cache_lookup_remove_self (c : Cache) (k : String) :
    (c.remove k).lookup k = none := by
  unfold Cache.remove Cache.lookup
  rw [List.find?_filter]
  have hf : (fun a : String × CacheVal =>
      decide ((!decide (a.1 = k)) = true ∧ decide (a.1 = k) = true))
      = fun _ : String × CacheVal => false := by
    funext a
    by_cases ha : a.1 = k <;> simp [ha]
  rw [hf]
  have : List.find? (fun _ : String × CacheVal => false) c = none := by
    rw [List.find?_eq_none]
    intro x _
    simp
  rw [this]
  rfl

theorem cache_lookup_insert_ne (c : Cache) (k k2 : String) (v : CacheVal)
    (h : k2 ≠ k) : (c.insert k v).lookup k2 = c.lookup k2 := by
  unfold Cache.insert Cache.lookup
  rw [List.find?_cons]
  have hd : (decide ((k, v).1 = k2)) = false := by
    simp only [decide_eq_false_iff_not]
    exact fun hh => h hh.symm
  rw [hd]
  exact cache_lookup_remove_ne c k k2 h

theorem storeFind_storePut_self (st : Store) (it : Item) :
    storeFind (storePut st it) it.pk it.sk = some it := by
  unfold storeFind storePut
  rw [List.find?_append, List.find?_filter]
  have hf : (fun a : Item =>
      decide ((!(decide (a.pk = it.pk) && decide (a.sk = it.sk))) = true ∧
        (decide (a.pk = it.pk) && decide (a.sk = it.sk)) = true))
      = fun _ : Item => false := by
    funext a
    by_cases h1 : a.pk = it.pk <;> by_cases h2 : a.sk = it.sk <;>
      simp [h1, h2]
  rw [hf]
  have hn : List.find? (fun _ : Item => false) st = none := by
    rw [List.find?_eq_none]; intro x _; simp
  rw [hn, Option.none_or]
  simp [List.find?_cons]

set_option linter.unnecessarySeqFocus false in
theorem storeFind_storePut_ne (st : Store) (it : Item) (pk sk : String)
    (h : ¬(it.pk = pk ∧ it.sk = sk)) :
    storeFind (storePut st it) pk sk = storeFind st pk sk := by
  unfold storeFind storePut
  rw [List.find?_append, List.find?_filter]
  have hit : (decide (it.pk = pk) && decide (it.sk = sk)) = false := by
    by_cases h1 : it.pk = pk <;> by_cases h2 : it.sk = sk <;>
      simp [h1, h2] <;> exact h ⟨h1, h2⟩
  have hone : List.find? (fun a : Item =>
      decide (a.pk = pk) && decide (a.sk = sk)) [it] = none := by
    simp only [List.find?_cons, hit]
    rfl
  rw [hone, Option.or_none]
  have hf : (fun a : Item =>
      decide ((!(decide (a.pk = it.pk) && decide (a.sk = it.sk))) = true ∧
        (decide (a.pk = pk) && decide (a.sk = sk)) = true))
      = fun a : Item => decide (a.pk = pk) && decide (a.sk = sk) := by
    funext a
    by_cases h1 : a.pk = pk
    · by_cases h2 : a.sk = sk
      · have hne : ¬(a.pk = it.pk ∧ a.sk = it.sk) := fun hc =>
          h ⟨hc.1.symm.trans h1, hc.2.symm.trans h2⟩
        have hX : (decide (a.pk = it.pk) && decide (a.sk = it.sk))
            = false := by
          by_cases h3 : a.pk = it.pk
          · have h4 : ¬ a.sk = it.sk := fun h4 => hne ⟨h3, h4⟩
            simp [h4]
          · simp [h3]
        simp [hX, h1, h2]
        by_cases hp : pk = it.pk
        · exact Or.inr fun hs => h ⟨hp.symm, hs.symm⟩
        · exact Or.inl hp
      · simp [h2]
    · simp [h1]
  rw [hf]

theorem countKey_storePut_self (st : Store) (it : Item) :
    countKey (storePut st it) it.pk it.sk = 1 := by
  unfold countKey storePut
  rw [List.filter_append, List.filter_filter]
  have hf : (fun a : Item =>
      (decide (a.pk = it.pk) && decide (a.sk = it.sk)) &&
        (!(decide (a.pk = it.pk) && decide (a.sk = it.sk))))
      = fun _ : Item => false := by
    funext a
    by_cases h1 : a.pk = it.pk <;> by_cases h2 : a.sk = it.sk <;>
      simp [h1, h2]
  rw [hf]
  simp

theorem setTimestampsSeq_createdAt_of_ne (ts : List Nat)
    (e : DynamoDBEntity) (h : e.CreatedAt ≠ 0) :
    (setTimestampsSeq e ts).CreatedAt = e.CreatedAt := by
  induction ts generalizing e with
  | nil => rfl
  | cons t ts ih =>
    have hstep : (SetTimestamps e t).CreatedAt = e.CreatedAt := by
      simp [SetTimestamps, h]
    rw [setTimestampsSeq, List.foldl_cons]
    rw [show List.foldl SetTimestamps (SetTimestamps e t) ts
      = setTimestampsSeq (SetTimestamps e t) ts from rfl]
    rw [ih (SetTimestamps e t) (by rw [hstep]; exact h), hstep]

theorem setTimestampsSeq_updatedAt (ts : List Nat) (e : DynamoDBEntity)
    (t : Nat) :
    (setTimestampsSeq e (t :: ts)).UpdatedAt = ts.getLastD t := by
  induction ts generalizing e t with
  | nil => simp [setTimestampsSeq, SetTimestamps]
  | cons u ts ih =>
    rw [setTimestampsSeq, List.foldl_cons, List.getLastD_cons]
    exact ih (SetTimestamps e t) u

/-- C9: `created_at` is set exactly once and never changed by later
mutations, while `updated_at` is refreshed on every mutation:
`SetTimestamps` leaves a non-zero `CreatedAt` unchanged and always assigns
`UpdatedAt` the current time, so after any sequence of calls (each at a
non-zero wall-clock time, starting from the zero value) `CreatedAt` is the
time of the first call and `UpdatedAt` the time of the last call. -/
theorem C9_timestamps_set_once_refresh_always :
    (∀ (e : DynamoDBEntity) (now : Nat), e.CreatedAt ≠ 0 →
      (SetTimestamps e now).CreatedAt = e.CreatedAt) ∧
    (∀ (e : DynamoDBEntity) (now : Nat),
      (SetTimestamps e now).UpdatedAt = now) ∧
    (∀ (e : DynamoDBEntity) (t : Nat) (ts : List Nat),
      e.CreatedAt = 0 → t ≠ 0 →
      (setTimestampsSeq e (t :: ts)).CreatedAt = t ∧
      (setTimestampsSeq e (t :: ts)).UpdatedAt = ts.getLastD t) := by
  refine ⟨fun e now h => by simp [SetTimestamps, h],
    fun e now => by simp [SetTimestamps], fun e t ts h0 ht => ⟨?_, ?_⟩⟩
  · have hstep : (SetTimestamps e t).CreatedAt = t := by
      simp [SetTimestamps, h0]
    rw [setTimestampsSeq, List.foldl_cons]
    rw [show List.foldl SetTimestamps (SetTimestamps e t) ts
      = setTimestampsSeq (SetTimestamps e t) ts from rfl]
    rw [setTimestampsSeq_createdAt_of_ne ts _ (by rw [hstep]; exact ht),
      hstep]
  · exact setTimestampsSeq_updatedAt ts e t

/-- Witness for C9 at a concrete entity and call sequence. -/
theorem C9_timestamps_set_once_refresh_always_witness :
    (setTimestampsSeq zeroBase [3, 7]).CreatedAt = 3 ∧
    (setTimestampsSeq zeroBase [3, 7]).UpdatedAt = [7].getLastD 3 :=
  C9_timestamps_set_once_refresh_always.2.2 zeroBase 3 [7] rfl
    (by decide)

/-- C10: the legacy repository's `ListUsers` issues one `Scan` with a
fixed `Limit` of 100 and no pagination, so it returns at most 100 records
no matter how many user rows the table holds. -/
theorem C10_listUsers_capped_at_100 :
    ∀ tbl : List MUser, (dynListUsers tbl).length ≤ 100 := by
  intro tbl
  unfold dynListUsers scanPage
  rw [List.length_take]
  exact Nat.min_le_left _ _

theorem string_append_left_cancel {a b c : String} (h : a ++ b = a ++ c) :
    b = c := by
  have hd := congrArg String.data h
  rw [String.data_append, String.data_append] at hd
  exact String.ext (List.append_cancel_left hd)

theorem user_pk_ne_product_pk (a b : String) :
    "USER#" ++ a ≠ "PRODUCT#" ++ b := by
  intro h
  have hd := congrArg String.data h
  rw [String.data_append, String.data_append] at hd
  simp at hd

/-- C8 counterexample: `NewProduct`'s key derivation is not a function of
(entity type, owner id, id) alone — two products with the identical id
but different `category` attributes derive different `GSI1SK` values
(`CATEGORY#<category>#<id>`), so their four-key tuples differ. -/
theorem C8_product_gsi1sk_category_counterexample :
    (NewProduct "p1" "n" "d" 0 "A").base.GSI1SK
      ≠ (NewProduct "p1" "n" "d" 0 "B").base.GSI1SK ∧
    ((NewProduct "p1" "n" "d" 0 "A").base.PK,
      (NewProduct "p1" "n" "d" 0 "A").base.SK,
      (NewProduct "p1" "n" "d" 0 "A").base.GSI1PK,
      (NewProduct "p1" "n" "d" 0 "A").base.GSI1SK)
      ≠ ((NewProduct "p1" "n" "d" 0 "B").base.PK,
        (NewProduct "p1" "n" "d" 0 "B").base.SK,
        (NewProduct "p1" "n" "d" 0 "B").base.GSI1PK,
        (NewProduct "p1" "n" "d" 0 "B").base.GSI1SK) ∧
    (NewProduct "p1" "n" "d" 0 "A").base.EntityType
      = (NewProduct "p1" "n" "d" 0 "B").base.EntityType ∧
    (NewProduct "p1" "n" "d" 0 "A").ID
      = (NewProduct "p1" "n" "d" 0 "B").ID := by
  exact ⟨by decide, by decide, rfl, rfl⟩

/-- C8 amended: key derivation is deterministic and side-effect free.
For `NewUser` and `NewContact` the four key fields depend only on the
identifiers; distinct `(entityType, id)` pairs of standalone entities
(`USER`, `PRODUCT`) derive distinct `(PK, SK)` pairs; a contact's `PK`
equals its owner's `PK`.  For `NewProduct`, `(PK, SK, GSI1PK)` depend
only on the id, but `GSI1SK = "CATEGORY#" ++ category ++ "#" ++ id` also
depends on the `category` attribute: the four keys are a pure function of
`(id, category)`, not of `(entity type, owner id, id)` alone. -/
theorem C8_key_derivation_pure_injective_colocated :
    (∀ id e1 f1 l1 e2 f2 l2 : String,
      ((NewUser id e1 f1 l1).base.PK, (NewUser id e1 f1 l1).base.SK,
        (NewUser id e1 f1 l1).base.GSI1PK,
        (NewUser id e1 f1 l1).base.GSI1SK)
      = ((NewUser id e2 f2 l2).base.PK, (NewUser id e2 f2 l2).base.SK,
        (NewUser id e2 f2 l2).base.GSI1PK,
        (NewUser id e2 f2 l2).base.GSI1SK)) ∧
    (∀ (id uid n1 e1 p1 c1 n2 e2 p2 c2 : String) (fav1 fav2 : Bool),
      ((NewContact id uid n1 e1 p1 c1 fav1).base.PK,
        (NewContact id uid n1 e1 p1 c1 fav1).base.SK,
        (NewContact id uid n1 e1 p1 c1 fav1).base.GSI1PK,
        (NewContact id uid n1 e1 p1 c1 fav1).base.GSI1SK)
      = ((NewContact id uid n2 e2 p2 c2 fav2).base.PK,
        (NewContact id uid n2 e2 p2 c2 fav2).base.SK,
        (NewContact id uid n2 e2 p2 c2 fav2).base.GSI1PK,
        (NewContact id uid n2 e2 p2 c2 fav2).base.GSI1SK)) ∧
    (∀ (t1 t2 : StandaloneType) (id1 id2 : String),
      standaloneKeys t1 id1 = standaloneKeys t2 id2 →
      t1 = t2 ∧ id1 = id2) ∧
    (∀ cid uid n e p c em fn ln : String, ∀ fav : Bool,
      (NewContact cid uid n e p c fav).base.PK
      = (NewUser uid em fn ln).base.PK) ∧
    (∀ (id c n1 d1 n2 d2 : String) (pr1 pr2 : Int),
      ((NewProduct id n1 d1 pr1 c).base.PK,
        (NewProduct id n1 d1 pr1 c).base.SK,
        (NewProduct id n1 d1 pr1 c).base.GSI1PK,
        (NewProduct id n1 d1 pr1 c).base.GSI1SK)
      = ((NewProduct id n2 d2 pr2 c).base.PK,
        (NewProduct id n2 d2 pr2 c).base.SK,
        (NewProduct id n2 d2 pr2 c).base.GSI1PK,
        (NewProduct id n2 d2 pr2 c).base.GSI1SK)) ∧
    (∀ (id n d c : String) (pr : Int),
      (NewProduct id n d pr c).base.PK = "PRODUCT#" ++ id ∧
      (NewProduct id n d pr c).base.SK = "METADATA" ∧
      (NewProduct id n d pr c).base.GSI1PK = "PRODUCT" ∧
      (NewProduct id n d pr c).base.GSI1SK
        = "CATEGORY#" ++ c ++ "#" ++ id) := by
  refine ⟨fun _ _ _ _ _ _ _ => rfl, fun _ _ _ _ _ _ _ _ _ _ _ _ => rfl,
    ?_, fun _ _ _ _ _ _ _ _ _ _ => rfl,
    fun _ _ _ _ _ _ _ _ => rfl,
    fun _ _ _ _ _ => ⟨rfl, rfl, rfl, rfl⟩⟩
  intro t1 t2 id1 id2 h
  cases t1 <;> cases t2 <;>
    simp only [standaloneKeys, NewUser, NewProduct, Prod.mk.injEq] at h
  · exact ⟨rfl, string_append_left_cancel h.1⟩
  · exact absurd h.1 (user_pk_ne_product_pk id1 id2)
  · exact absurd h.1.symm (user_pk_ne_product_pk id2 id1)
  · exact ⟨rfl, string_append_left_cancel h.1⟩

/-- Witness for C8's injectivity conjunct at concrete keys. -/
theorem C8_key_derivation_pure_injective_colocated_witness :
    StandaloneType.userT = StandaloneType.userT ∧ "a" = "a" :=
  C8_key_derivation_pure_injective_colocated.2.2.1
    StandaloneType.userT StandaloneType.userT "a" "a" rfl

/-- C4: `UpdateEntity` (`UpdateUser` / `UpdateContact`) on an identity
absent from the store returns `NotFound` and terminates before any cache
set, cache delete, or list invalidation: the returned state is exactly the
input state (store and cache unchanged). -/
theorem C4_update_absent_notfound_no_mutation :
    ∀ (f : CacheFaults) (s : SysState) (uid cid : String)
      (up : AttrUpdates) (now : Nat),
    (storeFind s.store ("USER#" ++ uid) "METADATA" = none →
      updateUser f s uid up now = (.error .userNotFound, s)) ∧
    (storeFind s.store ("USER#" ++ uid) ("CONTACT#" ++ cid) = none →
      updateContact f s uid cid up now = (.error .contactNotFound, s)) := by
  refine fun f s uid cid up now => ⟨fun h => ?_, fun h => ?_⟩
  · unfold updateUser repoUpdate
    rw [h]
  · unfold updateContact repoUpdate
    rw [h]

/-- Witness for C4: updating a user and a contact in an empty store. -/
theorem C4_update_absent_notfound_no_mutation_witness :
    updateUser noFaults { store := [], cache := [] } "u" AttrUpdates.none 1
      = (.error .userNotFound, { store := [], cache := [] }) ∧
    updateContact noFaults { store := [], cache := [] } "u" "c"
      AttrUpdates.none 1
      = (.error .contactNotFound, { store := [], cache := [] }) :=
  ⟨(C4_update_absent_notfound_no_mutation noFaults
      { store := [], cache := [] } "u" "c" AttrUpdates.none 1).1 rfl,
    (C4_update_absent_notfound_no_mutation noFaults
      { store := [], cache := [] } "u" "c" AttrUpdates.none 1).2 rfl⟩

/-- C5 counterexample: the legacy `DynamoDBRepository.GetUser` cited by
the claim, applied to a table with no row for id `"u1"`, returns a nil
record with a nil error (a success carrying `none`), not a `NotFound`
failure. -/
theorem C5_legacy_get_returns_nil_nil :
    dynGetUser ([] : LegacyTable) "u1" = Except.ok Option.none ∧
    (dynGetUser ([] : LegacyTable) "u1").isOk = true :=
  ⟨rfl, rfl⟩

/-- C5 amended: the generic repository's point `Get` — the path the
coordinator actually uses — fails with `ErrNotFound` on an absent
`(pk, sk)` and is distinguishable from every success; the legacy
`DynamoDBRepository.GetUser` instead returns a nil record with a nil
error. -/
theorem C5_point_get_notfound :
    ∀ (st : Store) (pk sk : String), storeFind st pk sk = none →
      repoGet st pk sk = Except.error RepoErr.notFound ∧
      (repoGet st pk sk).isOk = false := by
  intro st pk sk h
  unfold repoGet
  rw [h]
  exact ⟨rfl, rfl⟩

/-- Witness for C5's amended theorem at an empty store. -/
theorem C5_point_get_notfound_witness :
    repoGet ([] : Store) "USER#u" "METADATA"
      = Except.error RepoErr.notFound ∧
    (repoGet ([] : Store) "USER#u" "METADATA").isOk = false :=
  C5_point_get_notfound [] "USER#u" "METADATA" rfl

theorem getUser_hit (f : CacheFaults) (c : Cache) (uid : String)
    (v : UserEntity) (store : Store)
    (h : (cacheGet f c (userKey uid)).bind CacheVal.asUser = some v) :
    getUser f { store := store, cache := c } uid
      = (.ok v, { store := store, cache := c }) := by
  simp only [getUser]
  rw [h]

theorem getUser_miss_absent (f : CacheFaults) (s : SysState) (uid : String)
    (h1 : (cacheGet f s.cache (userKey uid)).bind CacheVal.asUser = none)
    (h2 : storeFind s.store ("USER#" ++ uid) "METADATA" = none) :
    getUser f s uid = (.error .userNotFound, s) := by
  simp only [getUser]
  rw [h1]
  simp only [repoGet]
  rw [h2]

theorem getUser_miss_found (f : CacheFaults) (s : SysState) (uid : String)
    (it : Item)
    (h1 : (cacheGet f s.cache (userKey uid)).bind CacheVal.asUser = none)
    (h2 : storeFind s.store ("USER#" ++ uid) "METADATA" = some it) :
    getUser f s uid = (.ok it.toUser,
      { store := s.store, cache := cacheUserOp f s.cache it.toUser }) := by
  simp only [getUser]
  rw [h1]
  simp only [repoGet]
  rw [h2]

theorem getContact_hit (f : CacheFaults) (c : Cache) (uid cid : String)
    (v : ContactEntity) (store : Store)
    (h : (cacheGet f c (contactKey uid cid)).bind CacheVal.asContact
      = some v) :
    getContact f { store := store, cache := c } uid cid
      = (.ok v, { store := store, cache := c }) := by
  simp only [getContact]
  rw [h]

theorem getContact_miss_absent (f : CacheFaults) (s : SysState)
    (uid cid : String)
    (h1 : (cacheGet f s.cache (contactKey uid cid)).bind CacheVal.asContact
      = none)
    (h2 : storeFind s.store ("USER#" ++ uid) ("CONTACT#" ++ cid) = none) :
    getContact f s uid cid = (.error .contactNotFound, s) := by
  simp only [getContact]
  rw [h1]
  simp only [repoGet]
  rw [h2]

theorem getContact_miss_found (f : CacheFaults) (s : SysState)
    (uid cid : String) (it : Item)
    (h1 : (cacheGet f s.cache (contactKey uid cid)).bind CacheVal.asContact
      = none)
    (h2 : storeFind s.store ("USER#" ++ uid) ("CONTACT#" ++ cid)
      = some it) :
    getContact f s uid cid = (.ok it.toContact,
      { store := s.store,
        cache := cacheContactOp f s.cache it.toContact }) := by
  simp only [getContact]
  rw [h1]
  simp only [repoGet]
  rw [h2]

/-- C7: the point read (`GetUser` / `GetContact`) follows exactly the
cache-aside state machine: a deserializable cache entry for the point key
is returned with no store access (the result and final state are the same
for every store) and no cache mutation; otherwise the store is consulted,
`NotFound` propagates, and on store success the record is best-effort
written back and returned. -/
theorem C7_point_read_state_machine :
    (∀ (f : CacheFaults) (c : Cache) (uid : String) (v : UserEntity)
      (store : Store),
      (cacheGet f c (userKey uid)).bind CacheVal.asUser = some v →
      getUser f { store := store, cache := c } uid
        = (.ok v, { store := store, cache := c })) ∧
    (∀ (f : CacheFaults) (s : SysState) (uid : String),
      (cacheGet f s.cache (userKey uid)).bind CacheVal.asUser = none →
      storeFind s.store ("USER#" ++ uid) "METADATA" = none →
      getUser f s uid = (.error .userNotFound, s)) ∧
    (∀ (f : CacheFaults) (s : SysState) (uid : String) (it : Item),
      (cacheGet f s.cache (userKey uid)).bind CacheVal.asUser = none →
      storeFind s.store ("USER#" ++ uid) "METADATA" = some it →
      getUser f s uid = (.ok it.toUser,
        { store := s.store, cache := cacheUserOp f s.cache it.toUser })) ∧
    (∀ (f : CacheFaults) (c : Cache) (uid cid : String)
      (v : ContactEntity) (store : Store),
      (cacheGet f c (contactKey uid cid)).bind CacheVal.asContact
        = some v →
      getContact f { store := store, cache := c } uid cid
        = (.ok v, { store := store, cache := c })) ∧
    (∀ (f : CacheFaults) (s : SysState) (uid cid : String),
      (cacheGet f s.cache (contactKey uid cid)).bind CacheVal.asContact
        = none →
      storeFind s.store ("USER#" ++ uid) ("CONTACT#" ++ cid) = none →
      getContact f s uid cid = (.error .contactNotFound, s)) ∧
    (∀ (f : CacheFaults) (s : SysState) (uid cid : String) (it : Item),
      (cacheGet f s.cache (contactKey uid cid)).bind CacheVal.asContact
        = none →
      storeFind s.store ("USER#" ++ uid) ("CONTACT#" ++ cid) = some it →
      getContact f s uid cid = (.ok it.toContact,
        { store := s.store,
          cache := cacheContactOp f s.cache it.toContact })) := by
  exact ⟨getUser_hit, getUser_miss_absent, getUser_miss_found,
    getContact_hit, getContact_miss_absent, getContact_miss_found⟩

/-- Witness for C7: a cache hit served without touching an empty store,
and a cache miss repopulated from the store. -/
theorem C7_point_read_state_machine_witness :
    getUser noFaults
      { store := [],
        cache := [(userKey "u", CacheVal.user (NewUser "u" "e" "f" "l"))] }
      "u"
      = (.ok (NewUser "u" "e" "f" "l"),
        { store := [],
          cache :=
            [(userKey "u", CacheVal.user (NewUser "u" "e" "f" "l"))] }) ∧
    getUser noFaults
      { store := [Item.user (NewUser "u" "e" "f" "l")], cache := [] } "u"
      = (.ok (Item.user (NewUser "u" "e" "f" "l")).toUser,
        { store := [Item.user (NewUser "u" "e" "f" "l")],
          cache := cacheUserOp noFaults []
            (Item.user (NewUser "u" "e" "f" "l")).toUser }) :=
  ⟨C7_point_read_state_machine.1 noFaults
      [(userKey "u", CacheVal.user (NewUser "u" "e" "f" "l"))] "u"
      (NewUser "u" "e" "f" "l") [] rfl,
    C7_point_read_state_machine.2.2.1 noFaults
      { store := [Item.user (NewUser "u" "e" "f" "l")], cache := [] } "u"
      (Item.user (NewUser "u" "e" "f" "l")) rfl rfl⟩

theorem cacheGet_congr {f f' : CacheFaults} (c : Cache) (k : String)
    (h : f.getFault = f'.getFault) : cacheGet f c k = cacheGet f' c k := by
  simp only [cacheGet, h]

theorem getUser_fst (f : CacheFaults) (s : SysState) (uid : String) :
    (getUser f s uid).1
      = match (cacheGet f s.cache (userKey uid)).bind CacheVal.asUser with
        | some u => .ok u
        | none => storeGetUserOutcome s.store uid := by
  simp only [getUser, storeGetUserOutcome]
  cases (cacheGet f s.cache (userKey uid)).bind CacheVal.asUser with
  | some u => rfl
  | none =>
    cases repoGet s.store ("USER#" ++ uid) "METADATA" with
    | error e => cases e <;> rfl
    | ok it => rfl

theorem getContact_fst (f : CacheFaults) (s : SysState)
    (uid cid : String) :
    (getContact f s uid cid).1
      = match (cacheGet f s.cache (contactKey uid cid)).bind
          CacheVal.asContact with
        | some c => .ok c
        | none => storeGetContactOutcome s.store uid cid := by
  simp only [getContact, storeGetContactOutcome]
  cases (cacheGet f s.cache (contactKey uid cid)).bind
      CacheVal.asContact with
  | some c => rfl
  | none =>
    cases repoGet s.store ("USER#" ++ uid) ("CONTACT#" ++ cid) with
    | error e => cases e <;> rfl
    | ok it => rfl

theorem listAllUsers_fst (f : CacheFaults) (s : SysState) :
    (listAllUsers f s).1
      = match (cacheGet f s.cache usersListKey).bind
          CacheVal.asUserList with
        | some l => .ok l
        | none => .ok ((repoQueryByEntityType s.store "USER").map
            Item.toUser) := by
  simp only [listAllUsers]
  cases (cacheGet f s.cache usersListKey).bind CacheVal.asUserList with
  | some l => rfl
  | none => rfl

theorem listAllContacts_fst (f : CacheFaults) (s : SysState) :
    (listAllContacts f s).1
      = match (cacheGet f s.cache contactsListKey).bind
          CacheVal.asContactList with
        | some l => .ok l
        | none => .ok ((repoQueryByEntityType s.store "CONTACT").map
            Item.toContact) := by
  simp only [listAllContacts]
  cases (cacheGet f s.cache contactsListKey).bind
      CacheVal.asContactList with
  | some l => rfl
  | none => rfl

theorem listUserContacts_fst (f : CacheFaults) (s : SysState)
    (uid : String) :
    (listUserContacts f s uid).1
      = match (cacheGet f s.cache (userContactsKey uid)).bind
          CacheVal.asContactList with
        | some l => .ok l
        | none => .ok ((repoQuery s.store ("USER#" ++ uid)
            "CONTACT#").map Item.toContact) := by
  simp only [listUserContacts]
  cases (cacheGet f s.cache (userContactsKey uid)).bind
      CacheVal.asContactList with
  | some l => rfl
  | none => rfl

theorem listFavoriteContacts_fst (f : CacheFaults) (s : SysState)
    (uid : String) :
    (listFavoriteContacts f s uid).1
      = match (cacheGet f s.cache (favoritesKey uid)).bind
          CacheVal.asContactList with
        | some l => .ok l
        | none => .ok ((repoQueryFavorites s.store ("USER#" ++ uid)
            "CONTACT#").map Item.toContact) := by
  simp only [listFavoriteContacts]
  cases (cacheGet f s.cache (favoritesKey uid)).bind
      CacheVal.asContactList with
  | some l => rfl
  | none => rfl

theorem updateUser_fst (f : CacheFaults) (s : SysState) (uid : String)
    (up : AttrUpdates) (now : Nat) :
    (updateUser f s uid up now).1
      = match repoUpdate s.store ("USER#" ++ uid) "METADATA" up now with
        | .error .notFound => .error .userNotFound
        | .error _ => .error .internalErr
        | .ok store1 => (getUser f { s with store := store1 } uid).1 := by
  simp only [updateUser]
  generalize repoUpdate s.store ("USER#" ++ uid) "METADATA" up now = ru
  cases ru with
  | error e => cases e <;> rfl
  | ok store1 =>
    rcases hg : getUser f { s with store := store1 } uid with ⟨r, s2⟩
    simp only [hg]
    cases r <;> rfl

theorem updateContact_fst (f : CacheFaults) (s : SysState)
    (uid cid : String) (up : AttrUpdates) (now : Nat) :
    (updateContact f s uid cid up now).1
      = match repoUpdate s.store ("USER#" ++ uid) ("CONTACT#" ++ cid)
          up now with
        | .error .notFound => .error .contactNotFound
        | .error _ => .error .internalErr
        | .ok store1 =>
          (getContact f { s with store := store1 } uid cid).1 := by
  simp only [updateContact]
  generalize repoUpdate s.store ("USER#" ++ uid) ("CONTACT#" ++ cid) up now = ru
  cases ru with
  | error e => cases e <;> rfl
  | ok store1 =>
    rcases hg : getContact f { s with store := store1 } uid cid with ⟨r, s2⟩
    simp only [hg]
    cases r <;> rfl

theorem getUser_fst_inv {f f' : CacheFaults} (h : f.getFault = f'.getFault)
    (s : SysState) (uid : String) :
    (getUser f s uid).1 = (getUser f' s uid).1 := by
  rw [getUser_fst, getUser_fst, cacheGet_congr s.cache (userKey uid) h]

theorem getContact_fst_inv {f f' : CacheFaults}
    (h : f.getFault = f'.getFault) (s : SysState) (uid cid : String) :
    (getContact f s uid cid).1 = (getContact f' s uid cid).1 := by
  rw [getContact_fst, getContact_fst,
    cacheGet_congr s.cache (contactKey uid cid) h]

theorem getUser_fst_storeOutcome {f : CacheFaults} (h : f.getFault = true)
    (s : SysState) (uid : String) :
    (getUser f s uid).1 = storeGetUserOutcome s.store uid := by
  rw [getUser_fst]
  have hc : cacheGet f s.cache (userKey uid) = none := by
    simp [cacheGet, h]
  rw [hc]
  rfl

theorem getContact_fst_storeOutcome {f : CacheFaults}
    (h : f.getFault = true) (s : SysState) (uid cid : String) :
    (getContact f s uid cid).1 = storeGetContactOutcome s.store uid cid := by
  rw [getContact_fst]
  have hc : cacheGet f s.cache (contactKey uid cid) = none := by
    simp [cacheGet, h]
  rw [hc]
  rfl

theorem createUser_fst_inv (f f' : CacheFaults) (s : SysState)
    (uid em fn ln : String) (now : Nat) :
    (createUser f s uid em fn ln now).1
      = (createUser f' s uid em fn ln now).1 := by
  simp only [createUser]
  generalize repoPutIfNotExists s.store (.user (NewUser uid em fn ln)) now
    = r
  cases r with
  | error e => cases e <;> rfl
  | ok st1 => rfl

theorem createContact_fst_inv (g g' : CacheFaults) (s : SysState)
    (cid uid n em p co : String) (fav : Bool) (now : Nat) :
    (createContact g s cid uid n em p co fav now).1
      = (createContact g' s cid uid n em p co fav now).1 := rfl

theorem deleteUser_fst_inv (f f' : CacheFaults) (s : SysState)
    (uid : String) : (deleteUser f s uid).1 = (deleteUser f' s uid).1 := by
  simp only [deleteUser]
  generalize repoDelete s.store ("USER#" ++ uid) "METADATA" = r
  cases r with
  | error e => cases e <;> rfl
  | ok st1 => rfl

theorem deleteContact_fst_inv (f f' : CacheFaults) (s : SysState)
    (uid cid : String) :
    (deleteContact f s uid cid).1 = (deleteContact f' s uid cid).1 := by
  simp only [deleteContact]
  generalize repoDelete s.store ("USER#" ++ uid) ("CONTACT#" ++ cid) = r
  cases r with
  | error e => cases e <;> rfl
  | ok st1 => rfl

theorem listAllUsers_fst_inv {f f' : CacheFaults}
    (h : f.getFault = f'.getFault) (s : SysState) :
    (listAllUsers f s).1 = (listAllUsers f' s).1 := by
  rw [listAllUsers_fst, listAllUsers_fst, cacheGet_congr s.cache usersListKey h]

theorem listAllContacts_fst_inv {f f' : CacheFaults}
    (h : f.getFault = f'.getFault) (s : SysState) :
    (listAllContacts f s).1 = (listAllContacts f' s).1 := by
  rw [listAllContacts_fst, listAllContacts_fst,
    cacheGet_congr s.cache contactsListKey h]

theorem listUserContacts_fst_inv {f f' : CacheFaults}
    (h : f.getFault = f'.getFault) (s : SysState) (uid : String) :
    (listUserContacts f s uid).1 = (listUserContacts f' s uid).1 := by
  rw [listUserContacts_fst, listUserContacts_fst,
    cacheGet_congr s.cache (userContactsKey uid) h]

theorem listFavoriteContacts_fst_inv {f f' : CacheFaults}
    (h : f.getFault = f'.getFault) (s : SysState) (uid : String) :
    (listFavoriteContacts f s uid).1 = (listFavoriteContacts f' s uid).1 := by
  rw [listFavoriteContacts_fst, listFavoriteContacts_fst,
    cacheGet_congr s.cache (favoritesKey uid) h]

theorem updateUser_fst_inv {f f' : CacheFaults}
    (h : f.getFault = f'.getFault) (s : SysState) (uid : String)
    (up : AttrUpdates) (now : Nat) :
    (updateUser f s uid up now).1 = (updateUser f' s uid up now).1 := by
  rw [updateUser_fst, updateUser_fst]
  generalize repoUpdate s.store ("USER#" ++ uid) "METADATA" up now = ru
  cases ru with
  | error e => cases e <;> rfl
  | ok store1 => exact getUser_fst_inv h _ _

theorem updateContact_fst_inv {f f' : CacheFaults}
    (h : f.getFault = f'.getFault) (s : SysState) (uid cid : String)
    (up : AttrUpdates) (now : Nat) :
    (updateContact f s uid cid up now).1
      = (updateContact f' s uid cid up now).1 := by
  rw [updateContact_fst, updateContact_fst]
  generalize repoUpdate s.store ("USER#" ++ uid) ("CONTACT#" ++ cid) up now
    = ru
  cases ru with
  | error e => cases e <;> rfl
  | ok store1 => exact getContact_fst_inv h _ _ _

set_option linter.unusedVariables false in
/-- C6: cache failures never change the outcome of a coordinator
operation whose store step succeeds.  For every pair of fault
configurations agreeing on the cache-read fault, every operation returns
the same result (so set/delete failures are fully absorbed); the create
and delete operations return the same result under arbitrary fault
configurations; and when the cache read itself fails, the point reads
return exactly the pure store outcome. -/
theorem C6_cache_faults_never_change_outcome :
    ∀ f f' : CacheFaults, f.getFault = f'.getFault →
    ∀ (s : SysState) (uid cid em fn ln n p co : String) (fav : Bool)
      (up : AttrUpdates) (now : Nat),
    (∀ g g' : CacheFaults,
      (createUser g s uid em fn ln now).1
        = (createUser g' s uid em fn ln now).1) ∧
    (getUser f s uid).1 = (getUser f' s uid).1 ∧
    (updateUser f s uid up now).1 = (updateUser f' s uid up now).1 ∧
    (∀ g g' : CacheFaults, (deleteUser g s uid).1 = (deleteUser g' s uid).1) ∧
    (listAllUsers f s).1 = (listAllUsers f' s).1 ∧
    (∀ g g' : CacheFaults,
      (createContact g s cid uid n em p co fav now).1
        = (createContact g' s cid uid n em p co fav now).1) ∧
    (getContact f s uid cid).1 = (getContact f' s uid cid).1 ∧
    (updateContact f s uid cid up now).1
      = (updateContact f' s uid cid up now).1 ∧
    (∀ g g' : CacheFaults,
      (deleteContact g s uid cid).1 = (deleteContact g' s uid cid).1) ∧
    (listUserContacts f s uid).1 = (listUserContacts f' s uid).1 ∧
    (listFavoriteContacts f s uid).1 = (listFavoriteContacts f' s uid).1 ∧
    (listAllContacts f s).1 = (listAllContacts f' s).1 ∧
    (f.getFault = true →
      (getUser f s uid).1 = storeGetUserOutcome s.store uid) ∧
    (f.getFault = true →
      (getContact f s uid cid).1 = storeGetContactOutcome s.store uid cid) :=
  fun f f' h s uid cid em fn ln n p co fav up now =>
    ⟨fun g g' => createUser_fst_inv g g' s uid em fn ln now,
      getUser_fst_inv h s uid,
      updateUser_fst_inv h s uid up now,
      fun g g' => deleteUser_fst_inv g g' s uid,
      listAllUsers_fst_inv h s,
      fun g g' => createContact_fst_inv g g' s cid uid n em p co fav now,
      getContact_fst_inv h s uid cid,
      updateContact_fst_inv h s uid cid up now,
      fun g g' => deleteContact_fst_inv g g' s uid cid,
      listUserContacts_fst_inv h s uid,
      listFavoriteContacts_fst_inv h s uid,
      listAllContacts_fst_inv h s,
      fun hg => getUser_fst_storeOutcome hg s uid,
      fun hg => getContact_fst_storeOutcome hg s uid cid⟩

/-- Witness for C6 at concrete fault configurations and state: an
all-faults client versus the fault-free client on a one-row store. -/
theorem C6_cache_faults_never_change_outcome_witness :
    (getUser { getFault := false, setFault := true, delFault := true }
      { store := [Item.user (NewUser "u" "e" "f" "l")], cache := [] }
      "u").1
      = (getUser noFaults
        { store := [Item.user (NewUser "u" "e" "f" "l")], cache := [] }
        "u").1 :=
  (C6_cache_faults_never_change_outcome
    { getFault := false, setFault := true, delFault := true } noFaults rfl
    { store := [Item.user (NewUser "u" "e" "f" "l")], cache := [] }
    "u" "c" "e" "f" "l" "n" "p" "co" false AttrUpdates.none 1).2.1

theorem storeFind_keys {st : Store} {pk sk : String} {it : Item}
    (h : storeFind st pk sk = some it) : it.pk = pk ∧ it.sk = sk := by
  unfold storeFind at h
  have hp := List.find?_some h
  simp only [Bool.and_eq_true, decide_eq_true_eq] at hp
  exact hp

theorem lookup_after_user_finalize (f : CacheFaults) (c : Cache)
    (u : UserEntity) (hfs : f.setFault = false)
    (hk : userKey u.ID ≠ usersListKey) :
    (invalidateUserListCache f (cacheUserOp f c u)).lookup (userKey u.ID)
      = some (CacheVal.user u) := by
  have hset : cacheUserOp f c u = c.insert (userKey u.ID) (.user u) := by
    simp [cacheUserOp, cacheSet, hfs]
  rw [hset]
  unfold invalidateUserListCache cacheDel
  cases hdel : f.delFault
  · simp only [Bool.false_eq_true, if_false]
    rw [cache_lookup_remove_ne _ _ _ hk]
    exact cache_lookup_insert_self c (userKey u.ID) (.user u)
  · simp only [if_true]
    exact cache_lookup_insert_self c (userKey u.ID) (.user u)

theorem updateUser_fresh (f : CacheFaults) (s : SysState) (uid : String)
    (up : AttrUpdates) (now : Nat) (u0 : UserEntity)
    (hs : storeFind s.store ("USER#" ++ uid) "METADATA" = some (.user u0))
    (hc : (cacheGet f s.cache (userKey uid)).bind CacheVal.asUser = none) :
    (updateUser f s uid up now).1
      = .ok (applyUpdates (.user u0) up now).toUser ∧
    storeFind (updateUser f s uid up now).2.store ("USER#" ++ uid)
      "METADATA" = some (applyUpdates (.user u0) up now) ∧
    (f.setFault = false →
      userKey (applyUpdates (.user u0) up now).toUser.ID ≠ usersListKey →
      (updateUser f s uid up now).2.cache.lookup
        (userKey (applyUpdates (.user u0) up now).toUser.ID)
      = some (.user (applyUpdates (.user u0) up now).toUser)) := by
  have hpk1 : (applyUpdates (.user u0) up now).pk = "USER#" ++ uid :=
    (storeFind_keys hs).1
  have hsk1 : (applyUpdates (.user u0) up now).sk = "METADATA" :=
    (storeFind_keys hs).2
  have hrepo : repoUpdate s.store ("USER#" ++ uid) "METADATA" up now
      = .ok (storePut s.store (applyUpdates (.user u0) up now)) := by
    simp only [repoUpdate]
    rw [hs]
  have hsf : storeFind (storePut s.store (applyUpdates (.user u0) up now))
      ("USER#" ++ uid) "METADATA"
      = some (applyUpdates (.user u0) up now) := by
    have h0 := storeFind_storePut_self s.store
      (applyUpdates (.user u0) up now)
    rw [hpk1, hsk1] at h0
    exact h0
  have hget := getUser_miss_found f
    { s with store := storePut s.store (applyUpdates (.user u0) up now) }
    uid (applyUpdates (.user u0) up now) hc hsf
  simp only [updateUser, hrepo, hget]
  refine ⟨trivial, hsf, fun hfs hk => ?_⟩
  exact lookup_after_user_finalize f _ _ hfs hk

theorem updateUser_stale (f : CacheFaults) (s : SysState) (uid : String)
    (up : AttrUpdates) (now : Nat) (v : UserEntity) (it : Item)
    (hs : storeFind s.store ("USER#" ++ uid) "METADATA" = some it)
    (hc : (cacheGet f s.cache (userKey uid)).bind CacheVal.asUser
      = some v) :
    (updateUser f s uid up now).1 = .ok v ∧
    (f.setFault = false → userKey v.ID ≠ usersListKey →
      (updateUser f s uid up now).2.cache.lookup (userKey v.ID)
        = some (.user v)) := by
  have hrepo : repoUpdate s.store ("USER#" ++ uid) "METADATA" up now
      = .ok (storePut s.store (applyUpdates it up now)) := by
    simp only [repoUpdate]
    rw [hs]
  have hget := getUser_hit f s.cache uid v
    (storePut s.store (applyUpdates it up now)) hc
  simp only [updateUser, hrepo, hget]
  refine ⟨trivial, fun hfs hk => ?_⟩
  exact lookup_after_user_finalize f _ _ hfs hk

theorem updateContact_fresh (f : CacheFaults) (s : SysState)
    (uid cid : String) (up : AttrUpdates) (now : Nat) (c0 : ContactEntity)
    (hs : storeFind s.store ("USER#" ++ uid) ("CONTACT#" ++ cid)
      = some (.contact c0))
    (hc : (cacheGet f s.cache (contactKey uid cid)).bind
      CacheVal.asContact = none) :
    (updateContact f s uid cid up now).1
      = .ok (applyUpdates (.contact c0) up now).toContact ∧
    storeFind (updateContact f s uid cid up now).2.store ("USER#" ++ uid)
      ("CONTACT#" ++ cid) = some (applyUpdates (.contact c0) up now) := by
  have hpk1 : (applyUpdates (.contact c0) up now).pk = "USER#" ++ uid :=
    (storeFind_keys hs).1
  have hsk1 : (applyUpdates (.contact c0) up now).sk = "CONTACT#" ++ cid :=
    (storeFind_keys hs).2
  have hrepo : repoUpdate s.store ("USER#" ++ uid) ("CONTACT#" ++ cid)
      up now
      = .ok (storePut s.store (applyUpdates (.contact c0) up now)) := by
    simp only [repoUpdate]
    rw [hs]
  have hsf : storeFind
      (storePut s.store (applyUpdates (.contact c0) up now))
      ("USER#" ++ uid) ("CONTACT#" ++ cid)
      = some (applyUpdates (.contact c0) up now) := by
    have h0 := storeFind_storePut_self s.store
      (applyUpdates (.contact c0) up now)
    rw [hpk1, hsk1] at h0
    exact h0
  have hget := getContact_miss_found f
    { s with store :=
        storePut s.store (applyUpdates (.contact c0) up now) }
    uid cid (applyUpdates (.contact c0) up now) hc hsf
  simp only [updateContact, hrepo, hget]
  exact ⟨trivial, hsf⟩

theorem updateContact_stale (f : CacheFaults) (s : SysState)
    (uid cid : String) (up : AttrUpdates) (now : Nat)
    (v : ContactEntity) (it : Item)
    (hs : storeFind s.store ("USER#" ++ uid) ("CONTACT#" ++ cid) = some it)
    (hc : (cacheGet f s.cache (contactKey uid cid)).bind
      CacheVal.asContact = some v) :
    (updateContact f s uid cid up now).1 = .ok v := by
  have hrepo : repoUpdate s.store ("USER#" ++ uid) ("CONTACT#" ++ cid)
      up now = .ok (storePut s.store (applyUpdates it up now)) := by
    simp only [repoUpdate]
    rw [hs]
  have hget := getContact_hit f s.cache uid cid v
    (storePut s.store (applyUpdates it up now)) hc
  simp only [updateContact, hrepo, hget]

/-- C1 counterexample: with a pre-update snapshot of the user still in
the cache at re-read time, `UpdateUser` returns that stale snapshot and
re-writes it to the cache, while the store holds the updated row — so the
returned record and the cache value do not equal what the store holds
after the update. -/
theorem C1_stale_snapshot_served_counterexample :
    let up : AttrUpdates := { AttrUpdates.none with firstName := some "New" }
    let s0 : SysState :=
      { store := [Item.user (NewUser "u1" "e" "Old" "L")],
        cache :=
          [(userKey "u1", CacheVal.user (NewUser "u1" "e" "Stale" "L"))] }
    let r := updateUser noFaults s0 "u1" up 9
    r.1 = .ok (NewUser "u1" "e" "Stale" "L") ∧
    storeFind r.2.store "USER#u1" "METADATA"
      = some (applyUpdates (.user (NewUser "u1" "e" "Old" "L")) up 9) ∧
    (applyUpdates (.user (NewUser "u1" "e" "Old" "L")) up 9).toUser
      ≠ NewUser "u1" "e" "Stale" "L" ∧
    r.2.cache.lookup (userKey "u1")
      = some (CacheVal.user (NewUser "u1" "e" "Stale" "L")) := by
  exact ⟨rfl, rfl, by decide, rfl⟩

/-- C1 amended: `UpdateUser` / `UpdateContact` apply the store update and
re-read through the cache-first point read.  When the cache holds no
deserializable entry for the point key at re-read time, the returned
record and the value written back to the cache equal exactly the store's
post-update row; but when a pre-update snapshot is still cached, that
stale snapshot is returned (and re-written to the cache) instead of the
store's value. -/
theorem C1_update_reread_is_cache_first :
    (∀ (f : CacheFaults) (s : SysState) (uid : String) (up : AttrUpdates)
      (now : Nat) (u0 : UserEntity),
      storeFind s.store ("USER#" ++ uid) "METADATA" = some (.user u0) →
      (cacheGet f s.cache (userKey uid)).bind CacheVal.asUser = none →
      (updateUser f s uid up now).1
        = .ok (applyUpdates (.user u0) up now).toUser ∧
      storeFind (updateUser f s uid up now).2.store ("USER#" ++ uid)
        "METADATA" = some (applyUpdates (.user u0) up now) ∧
      (f.setFault = false →
        userKey (applyUpdates (.user u0) up now).toUser.ID
          ≠ usersListKey →
        (updateUser f s uid up now).2.cache.lookup
          (userKey (applyUpdates (.user u0) up now).toUser.ID)
        = some (.user (applyUpdates (.user u0) up now).toUser))) ∧
    (∀ (f : CacheFaults) (s : SysState) (uid : String) (up : AttrUpdates)
      (now : Nat) (v : UserEntity) (it : Item),
      storeFind s.store ("USER#" ++ uid) "METADATA" = some it →
      (cacheGet f s.cache (userKey uid)).bind CacheVal.asUser = some v →
      (updateUser f s uid up now).1 = .ok v ∧
      (f.setFault = false → userKey v.ID ≠ usersListKey →
        (updateUser f s uid up now).2.cache.lookup (userKey v.ID)
          = some (.user v))) ∧
    (∀ (f : CacheFaults) (s : SysState) (uid cid : String)
      (up : AttrUpdates) (now : Nat) (c0 : ContactEntity),
      storeFind s.store ("USER#" ++ uid) ("CONTACT#" ++ cid)
        = some (.contact c0) →
      (cacheGet f s.cache (contactKey uid cid)).bind CacheVal.asContact
        = none →
      (updateContact f s uid cid up now).1
        = .ok (applyUpdates (.contact c0) up now).toContact ∧
      storeFind (updateContact f s uid cid up now).2.store
        ("USER#" ++ uid) ("CONTACT#" ++ cid)
        = some (applyUpdates (.contact c0) up now)) ∧
    (∀ (f : CacheFaults) (s : SysState) (uid cid : String)
      (up : AttrUpdates) (now : Nat) (v : ContactEntity) (it : Item),
      storeFind s.store ("USER#" ++ uid) ("CONTACT#" ++ cid) = some it →
      (cacheGet f s.cache (contactKey uid cid)).bind CacheVal.asContact
        = some v →
      (updateContact f s uid cid up now).1 = .ok v) :=
  ⟨updateUser_fresh, updateUser_stale, updateContact_fresh,
    updateContact_stale⟩

/-- Witness for C1's amended theorem: a cold-cache update returns the
store's post-update row, and a warm stale cache serves the snapshot. -/
theorem C1_update_reread_is_cache_first_witness :
    (updateUser noFaults
      { store := [Item.user (NewUser "u1" "e" "Old" "L")], cache := [] }
      "u1" { AttrUpdates.none with firstName := some "New" } 9).1
      = .ok (applyUpdates (.user (NewUser "u1" "e" "Old" "L"))
          { AttrUpdates.none with firstName := some "New" } 9).toUser ∧
    (updateUser noFaults
      { store := [Item.user (NewUser "u1" "e" "Old" "L")],
        cache :=
          [(userKey "u1", CacheVal.user (NewUser "u1" "e" "Stale" "L"))] }
      "u1" { AttrUpdates.none with firstName := some "New" } 9).1
      = .ok (NewUser "u1" "e" "Stale" "L") :=
  ⟨(C1_update_reread_is_cache_first.1 noFaults
      { store := [Item.user (NewUser "u1" "e" "Old" "L")], cache := [] }
      "u1" { AttrUpdates.none with firstName := some "New" } 9
      (NewUser "u1" "e" "Old" "L") rfl rfl).1,
    (C1_update_reread_is_cache_first.2.1 noFaults
      { store := [Item.user (NewUser "u1" "e" "Old" "L")],
        cache :=
          [(userKey "u1", CacheVal.user (NewUser "u1" "e" "Stale" "L"))] }
      "u1" { AttrUpdates.none with firstName := some "New" } 9
      (NewUser "u1" "e" "Stale" "L")
      (Item.user (NewUser "u1" "e" "Old" "L")) rfl rfl).1⟩

instance {ε α : Type} [DecidableEq ε] [DecidableEq α] :
    DecidableEq (Except ε α) := fun x y =>
  match x, y with
  | .error a, .error b =>
    if h : a = b then isTrue (by rw [h])
    else isFalse (by intro hc; injection hc; contradiction)
  | .ok a, .ok b =>
    if h : a = b then isTrue (by rw [h])
    else isFalse (by intro hc; injection hc; contradiction)
  | .error _, .ok _ => isFalse (by intro hc; injection hc)
  | .ok _, .error _ => isFalse (by intro hc; injection hc)

theorem contactsListKey_ne_userContactsKey (uid : String) :
    contactsListKey ≠ userContactsKey uid := by
  intro h
  have hlen := congrArg String.length h
  simp only [contactsListKey, userContactsKey, String.length_append]
    at hlen
  have h13 : ("contacts:list" : String).length = 13 := rfl
  have h14 : ("contacts:user:" : String).length = 14 := rfl
  rw [h13, h14] at hlen
  omega

theorem contactsListKey_ne_favoritesKey (uid : String) :
    contactsListKey ≠ favoritesKey uid := by
  intro h
  have hlen := congrArg String.length h
  simp only [contactsListKey, favoritesKey, String.length_append] at hlen
  have h13 : ("contacts:list" : String).length = 13 := rfl
  have h19 : ("contacts:favorites:" : String).length = 19 := rfl
  rw [h13, h19] at hlen
  omega

theorem userContactsKey_ne_favoritesKey (uid : String) :
    userContactsKey uid ≠ favoritesKey uid := by
  intro h
  have hlen := congrArg String.length h
  simp only [userContactsKey, favoritesKey, String.length_append] at hlen
  have h14 : ("contacts:user:" : String).length = 14 := rfl
  have h19 : ("contacts:favorites:" : String).length = 19 := rfl
  rw [h14, h19] at hlen
  omega

theorem cacheSet_lookup_ne (f : CacheFaults) (c : Cache) (k k2 : String)
    (v : CacheVal) (h : k2 ≠ k) :
    (cacheSet f c k v).lookup k2 = c.lookup k2 := by
  unfold cacheSet
  cases hsf : f.setFault
  · simp only [Bool.false_eq_true, if_false]
    exact cache_lookup_insert_ne c k k2 v h
  · simp only [if_true]

theorem invalidateUserContactCaches_frame (f : CacheFaults) (c : Cache)
    (uid k : String) (h1 : k ≠ userContactsKey uid)
    (h2 : k ≠ favoritesKey uid) :
    (invalidateUserContactCaches f c uid).lookup k = c.lookup k := by
  unfold invalidateUserContactCaches
  cases hdf : f.delFault
  · simp only [Bool.false_eq_true, if_false]
    rw [cache_lookup_remove_ne _ _ _ h2, cache_lookup_remove_ne _ _ _ h1]
  · simp only [if_true]

theorem invalidateUserContactCaches_deletes (f : CacheFaults) (c : Cache)
    (uid : String) (hd : f.delFault = false) :
    (invalidateUserContactCaches f c uid).lookup (userContactsKey uid)
      = none ∧
    (invalidateUserContactCaches f c uid).lookup (favoritesKey uid)
      = none := by
  unfold invalidateUserContactCaches
  rw [hd]
  simp only [Bool.false_eq_true, if_false]
  constructor
  · rw [cache_lookup_remove_ne _ _ _
      (userContactsKey_ne_favoritesKey uid)]
    exact cache_lookup_remove_self _ _
  · exact cache_lookup_remove_self _ _

theorem createUser_invalidates_users_list (f : CacheFaults) (s : SysState)
    (uid em fn ln : String) (now : Nat)
    (hs : storeFind s.store ("USER#" ++ uid) "METADATA" = none)
    (hd : f.delFault = false) :
    (createUser f s uid em fn ln now).2.cache.lookup usersListKey
      = none := by
  have hrepo : repoPutIfNotExists s.store (.user (NewUser uid em fn ln))
      now = .ok (storePut s.store
        ((Item.user (NewUser uid em fn ln)).setTimestamps now)) := by
    simp only [repoPutIfNotExists]
    have hfind : storeFind s.store
        ((Item.user (NewUser uid em fn ln)).setTimestamps now).pk
        ((Item.user (NewUser uid em fn ln)).setTimestamps now).sk
        = none := hs
    rw [hfind]
  simp only [createUser, hrepo, invalidateUserListCache, cacheDel, hd]
  simp only [Bool.false_eq_true, if_false]
  exact cache_lookup_remove_self _ _

theorem createContact_preserves_contacts_list (f : CacheFaults)
    (s : SysState) (cid uid n em p co : String) (fav : Bool) (now : Nat)
    (hk : contactsListKey ≠ contactKey uid cid) :
    (createContact f s cid uid n em p co fav now).2.cache.lookup
      contactsListKey = s.cache.lookup contactsListKey := by
  simp only [createContact]
  rw [invalidateUserContactCaches_frame f _ uid contactsListKey
    (contactsListKey_ne_userContactsKey uid)
    (contactsListKey_ne_favoritesKey uid)]
  exact cacheSet_lookup_ne f _ _ _ _ hk

/-- C2 counterexample: `CreateContact` does not delete the type-wide
`contacts:list` cache key — the previously cached (now stale) list
survives the creation, and the next `ListAllContacts` serves it from the
cache instead of making a store round trip (the store-derived list would
differ). -/
theorem C2_contacts_list_not_invalidated_counterexample :
    let stale := NewContact "old" "u9" "n" "e" "p" "c" false
    let s0 : SysState :=
      { store := [],
        cache := [(contactsListKey, CacheVal.contactList [stale])] }
    let r := createContact noFaults s0 "c1" "u1" "N" "E" "P" "C" false 7
    r.2.cache.lookup contactsListKey
      = some (CacheVal.contactList [stale]) ∧
    (listAllContacts noFaults r.2).1 = .ok [stale] ∧
    (listAllContacts noFaults r.2).1
      ≠ .ok ((repoQueryByEntityType r.2.store "CONTACT").map
          Item.toContact) := by
  exact ⟨rfl, rfl, by decide⟩

/-- C2 amended: `CreateUser` deletes the type-wide `users:list` key on
success, but `CreateContact` invalidates only the owner-relation
(`contacts:user:<uid>`) and favorites (`contacts:favorites:<uid>`) list
keys: the invalidation step touches no other key, and in particular the
type-wide `contacts:list` key is left exactly as it was, so a subsequent
`ListAllContacts` can keep serving a previously cached list until its TTL
expires. -/
theorem C2_creation_invalidation_scope :
    (∀ (f : CacheFaults) (s : SysState) (uid em fn ln : String)
      (now : Nat),
      storeFind s.store ("USER#" ++ uid) "METADATA" = none →
      f.delFault = false →
      (createUser f s uid em fn ln now).2.cache.lookup usersListKey
        = none) ∧
    (∀ (f : CacheFaults) (c : Cache) (uid : String),
      f.delFault = false →
      (invalidateUserContactCaches f c uid).lookup (userContactsKey uid)
        = none ∧
      (invalidateUserContactCaches f c uid).lookup (favoritesKey uid)
        = none) ∧
    (∀ (f : CacheFaults) (c : Cache) (uid k : String),
      k ≠ userContactsKey uid → k ≠ favoritesKey uid →
      (invalidateUserContactCaches f c uid).lookup k = c.lookup k) ∧
    (∀ (f : CacheFaults) (s : SysState) (cid uid n em p co : String)
      (fav : Bool) (now : Nat),
      contactsListKey ≠ contactKey uid cid →
      (createContact f s cid uid n em p co fav now).2.cache.lookup
        contactsListKey = s.cache.lookup contactsListKey) :=
  ⟨createUser_invalidates_users_list,
    invalidateUserContactCaches_deletes,
    invalidateUserContactCaches_frame,
    createContact_preserves_contacts_list⟩

/-- Witness for C2's amended theorem at concrete inputs. -/
theorem C2_creation_invalidation_scope_witness :
    (createUser noFaults { store := [], cache := [] } "u" "e" "f" "l"
      3).2.cache.lookup usersListKey = none ∧
    (createContact noFaults
      { store := [],
        cache := [(contactsListKey,
          CacheVal.contactList [NewContact "old" "u9" "n" "e" "p" "c"
            false])] }
      "c1" "u1" "N" "E" "P" "C" false 7).2.cache.lookup contactsListKey
      = Cache.lookup [(contactsListKey,
          CacheVal.contactList [NewContact "old" "u9" "n" "e" "p" "c"
            false])] contactsListKey :=
  ⟨C2_creation_invalidation_scope.1 noFaults
      { store := [], cache := [] } "u" "e" "f" "l" 3 rfl rfl,
    C2_creation_invalidation_scope.2.2.2 noFaults
      { store := [],
        cache := [(contactsListKey,
          CacheVal.contactList [NewContact "old" "u9" "n" "e" "p" "c"
            false])] }
      "c1" "u1" "N" "E" "P" "C" false 7 (by decide)⟩

theorem createUser_twice (f f2 : CacheFaults) (s : SysState)
    (uid em fn ln em2 fn2 ln2 : String) (now now2 : Nat)
    (hs : storeFind s.store ("USER#" ++ uid) "METADATA" = none) :
    ((createUser f s uid em fn ln now).1).isOk = true ∧
    countKey (createUser f s uid em fn ln now).2.store ("USER#" ++ uid)
      "METADATA" = 1 ∧
    createUser f2 (createUser f s uid em fn ln now).2 uid em2 fn2 ln2 now2
      = (.error .userAlreadyExists, (createUser f s uid em fn ln now).2) := by
  have hrepo1 : repoPutIfNotExists s.store (.user (NewUser uid em fn ln))
      now = .ok (storePut s.store
        ((Item.user (NewUser uid em fn ln)).setTimestamps now)) := by
    simp only [repoPutIfNotExists]
    have hfind : storeFind s.store
        ((Item.user (NewUser uid em fn ln)).setTimestamps now).pk
        ((Item.user (NewUser uid em fn ln)).setTimestamps now).sk
        = none := hs
    rw [hfind]
  have hfound : storeFind (createUser f s uid em fn ln now).2.store
      ("USER#" ++ uid) "METADATA"
      = some ((Item.user (NewUser uid em fn ln)).setTimestamps now) := by
    simp only [createUser, hrepo1]
    exact storeFind_storePut_self s.store
      ((Item.user (NewUser uid em fn ln)).setTimestamps now)
  have hrepo2 : repoPutIfNotExists (createUser f s uid em fn ln now).2.store
      (.user (NewUser uid em2 fn2 ln2)) now2 = .error .alreadyExists := by
    simp only [repoPutIfNotExists]
    have hfind2 : storeFind (createUser f s uid em fn ln now).2.store
        ((Item.user (NewUser uid em2 fn2 ln2)).setTimestamps now2).pk
        ((Item.user (NewUser uid em2 fn2 ln2)).setTimestamps now2).sk
        = some ((Item.user (NewUser uid em fn ln)).setTimestamps now) :=
      hfound
    rw [hfind2]
  refine ⟨?_, ?_, ?_⟩
  · simp only [createUser, hrepo1]
    rfl
  · simp only [createUser, hrepo1]
    exact countKey_storePut_self s.store
      ((Item.user (NewUser uid em fn ln)).setTimestamps now)
  · set s1 := (createUser f s uid em fn ln now).2 with hs1
    simp only [createUser, hrepo2]

theorem createContact_always_ok (f : CacheFaults) (s : SysState)
    (cid uid n em p co : String) (fav : Bool) (now : Nat) :
    ((createContact f s cid uid n em p co fav now).1).isOk = true ∧
    countKey (createContact f s cid uid n em p co fav now).2.store
      ("USER#" ++ uid) ("CONTACT#" ++ cid) = 1 := by
  refine ⟨rfl, ?_⟩
  simp only [createContact, repoPut]
  exact countKey_storePut_self s.store
    ((Item.contact (NewContact cid uid n em p co fav)).setTimestamps now)

/-- C3 counterexample: two `CreateContact` calls with the same identity
both succeed — the second silently replaces the first row instead of
returning an `AlreadyExists` conflict (the store still holds exactly one
row, now carrying the second record). -/
theorem C3_create_contact_unconditional_counterexample :
    let r1 := createContact noFaults { store := [], cache := [] }
      "c1" "u1" "Alice" "E" "P" "C" false 1
    let r2 := createContact noFaults r1.2 "c1" "u1" "Bob" "E" "P" "C"
      false 2
    (r1.1).isOk = true ∧ (r2.1).isOk = true ∧
    countKey r2.2.store "USER#u1" "CONTACT#c1" = 1 ∧
    storeFind r2.2.store "USER#u1" "CONTACT#c1"
      = some ((Item.contact (NewContact "c1" "u1" "Bob" "E" "P" "C"
          false)).setTimestamps 2) :=
  ⟨rfl, rfl, rfl, rfl⟩

/-- C3 amended: only `CreateUser` writes with the conditional insert-only
`PutIfNotExists`: of two user creates with the same identity the first
succeeds, the second returns the `AlreadyExists` conflict with no store or
cache mutation, and the store holds exactly one row.  `CreateContact`
instead writes with an unconditional `Put`: every call succeeds, and a
repeat create of the same identity silently replaces the row (the store
still holds exactly one row for that identity, but no conflict is
surfaced). -/
theorem C3_create_conditional_only_for_users :
    (∀ (f f2 : CacheFaults) (s : SysState)
      (uid em fn ln em2 fn2 ln2 : String) (now now2 : Nat),
      storeFind s.store ("USER#" ++ uid) "METADATA" = none →
      ((createUser f s uid em fn ln now).1).isOk = true ∧
      countKey (createUser f s uid em fn ln now).2.store ("USER#" ++ uid)
        "METADATA" = 1 ∧
      createUser f2 (createUser f s uid em fn ln now).2 uid em2 fn2 ln2
        now2
        = (.error .userAlreadyExists,
          (createUser f s uid em fn ln now).2)) ∧
    (∀ (f : CacheFaults) (s : SysState) (cid uid n em p co : String)
      (fav : Bool) (now : Nat),
      ((createContact f s cid uid n em p co fav now).1).isOk = true ∧
      countKey (createContact f s cid uid n em p co fav now).2.store
        ("USER#" ++ uid) ("CONTACT#" ++ cid) = 1) :=
  ⟨createUser_twice, createContact_always_ok⟩

/-- Witness for C3's amended theorem: a duplicate user create against an
empty store. -/
theorem C3_create_conditional_only_for_users_witness :
    ((createUser noFaults { store := [], cache := [] } "u" "e" "f" "l"
      1).1).isOk = true ∧
    countKey (createUser noFaults { store := [], cache := [] } "u" "e"
      "f" "l" 1).2.store ("USER#" ++ "u") "METADATA" = 1 ∧
    createUser noFaults
      (createUser noFaults { store := [], cache := [] } "u" "e" "f" "l"
        1).2 "u" "e2" "f2" "l2" 2
      = (.error .userAlreadyExists,
        (createUser noFaults { store := [], cache := [] } "u" "e" "f" "l"
          1).2) :=
  C3_create_conditional_only_for_users.1 noFaults noFaults
    { store := [], cache := [] } "u" "e" "f" "l" "e2" "f2" "l2" 1 2 rfl

end HubControlPlane
